import Mathlib

/-!
Shallow embedding of the VietForeign audio localization pipeline.

The backend (`backend/utils.py`, `backend/routers/{audios,transcript,conversion}.py`)
and the AI-service layer (`ai_service/{transcript,translation,conversion}_service.py`)
are translated into pure Lean functions.  The opaque model capabilities (ASR,
correction, translation, XTTS conditioning/inference, voice conversion, language
detection) become function parameters returning `Except`, mirroring the narrow call
contracts the code relies on; the filesystem becomes an explicit path-to-bytes map
threaded through each operation; the two in-memory keyed stores become association
lists updated in request order.  Raised Python exceptions become `Except.error`
values tagged with the exception type, and the routes' `try`/`except` clauses are
translated into the corresponding error-mapping branches.
-/

deriving instance DecidableEq for Except

/-! ## Python string primitives -/

/-- Whitespace set of Python `str.strip` (the ASCII whitespace characters). -/
def isPySpace (c : Char) : Bool :=
  c == ' ' || c == '\t' || c == '\n' || c == '\r' || c == '\x0b' || c == '\x0c'

/-- Strip leading and trailing whitespace from a character list (Python `str.strip`). -/
def stripChars (l : List Char) : List Char :=
  (l.dropWhile isPySpace).rdropWhile isPySpace

/-- Python `str.strip` on strings. -/
def pyStrip (s : String) : String := String.mk (stripChars s.data)

/-- Python `str.lower` for the characters this code base compares: ASCII letters
plus `Ç`, the one non-ASCII letter occurring in the synthesis language table. -/
def pyLowerChar (c : Char) : Char := if c == 'Ç' then 'ç' else c.toLower

/-- Python `str.lower` on strings. -/
def pyLower (s : String) : String := String.mk (s.data.map pyLowerChar)

/-- Python `str.upper` (ASCII letters, as used on detected language codes). -/
def pyUpper (s : String) : String := String.mk (s.data.map Char.toUpper)

/-- Python `str.startswith`. -/
def pyStartsWith (s pre : String) : Bool := pre.data.isPrefixOf s.data

/-- Python `str.endswith`. -/
def pyEndsWith (s post : String) : Bool := post.data.isSuffixOf s.data

/-- Python `str.lstrip(".")`. -/
def lstripDot (s : String) : String := String.mk (s.data.dropWhile (fun c => c == '.'))

/-- One left-to-right pass of Python `str.replace` over a character list, indexed by
fuel so that the recursion is structural; with `fuel = l.length` it replaces every
non-overlapping occurrence of a non-empty `pat` by `rep`, exactly as Python does. -/
def replaceFuel (pat rep : List Char) : Nat → List Char → List Char
  | _, [] => []
  | 0, l => l
  | Nat.succ fuel, c :: rest =>
    if pat.isPrefixOf (c :: rest) && !pat.isEmpty then
      rep ++ replaceFuel pat rep fuel ((c :: rest).drop pat.length)
    else
      c :: replaceFuel pat rep fuel rest

/-- Python `str.replace` (all occurrences, left to right, non-overlapping). -/
def pyReplace (s pat rep : String) : String :=
  String.mk (replaceFuel pat.data rep.data s.data.length s.data)

/-- Final path component, Python `pathlib.PurePath.name` for ordinary file paths. -/
def pathName (s : String) : String :=
  String.mk ((s.data.reverse.takeWhile (fun c => c != '/')).reverse)

/-- Python `pathlib.PurePath.suffix`: the extension from the last dot of the final
component; empty when the name has no dot, when its only dot is the first
character, or when it ends in a dot (CPython's `0 < i < len(name) - 1` rule). -/
def pySuffix (s : String) : String :=
  let name := (pathName s).data
  let tail := (name.reverse.takeWhile (fun c => c != '.')).reverse
  if tail.length = name.length then ""
  else
    let i := name.length - 1 - tail.length
    if 0 < i ∧ i < name.length - 1 then String.mk ('.' :: tail) else ""

/-- Python truthiness of an optional string (`None` and `""` are falsy). -/
def optTruthy : Option String → Bool
  | some s => s != ""
  | none => false

/-- Python `a or b` for an optional string `a` and a string default `b`. -/
def pyOrElse (a : Option String) (b : String) : String :=
  match a with
  | some s => if s = "" then b else s
  | none => b

/-! ## Filesystem and error model -/

/-- The filesystem, as a map from paths to byte contents (newest entry first). -/
abbrev FS := List (String × List Nat)

def fsLookup (fs : FS) (p : String) : Option (List Nat) := fs.lookup p

/-- `os.path.exists`. -/
def fsExists (fs : FS) (p : String) : Bool := (fsLookup fs p).isSome

/-- Contents of a file (`[]` for a missing file; the sources only read files whose
existence they have checked). -/
def fsGet (fs : FS) (p : String) : List Nat := (fsLookup fs p).getD []

/-- `os.path.getsize`. -/
def fsSize (fs : FS) (p : String) : Nat := (fsGet fs p).length

/-- Writing a file (the newest binding shadows any older one). -/
def fsWrite (fs : FS) (p : String) (b : List Nat) : FS := (p, b) :: fs

/-- `os.remove` (the sources swallow `OSError`, so removal is total here). -/
def fsRemove (fs : FS) (p : String) : FS := fs.filter (fun e => e.1 != p)

/-- Python exception values crossing stage boundaries, tagged by exception type. -/
inductive PyExn where
  | fileNotFound (msg : String)
  | valueError (msg : String)
  | runtimeError (msg : String)
  | otherExn (msg : String)
  deriving DecidableEq

/-- Python `str(e)` for the exception types above. -/
def PyExn.msg : PyExn → String
  | .fileNotFound m => m
  | .valueError m => m
  | .runtimeError m => m
  | .otherExn m => m

/-- FastAPI `HTTPException`: status code plus detail string. -/
structure HErr where
  code : Nat
  detail : String
  deriving DecidableEq

/-- Python `str(e)` on an `HTTPException` (starlette renders `"code: detail"`). -/
def HErr.str (e : HErr) : String := toString e.code ++ ": " ++ e.detail

/-! ## Language Guard (`backend/utils.py`, `is_vietnamese_transcript`) -/

/-- `is_vietnamese_transcript`: the Language Guard.  `detect` is the opaque
language-detection capability (`fast_langdetect.detect`); `Except.error` models the
classifier throwing, which the guard degrades to a `detection_failed` rejection. -/
def is_vietnamese_transcript (detect : String → Except Unit String) (transcript : String) :
    Bool × String :=
  if transcript = "" ∨ (pyStrip transcript).length < 10 then (false, "text_too_short")
  else
    match detect (pyStrip transcript) with
    | .ok detected_lang => (detected_lang == "VI" || detected_lang == "VIE", detected_lang)
    | .error _ => (false, "detection_failed")

/-! ## Translation Stage (`ai_service/translation_service.py`) -/

/-- Target-language table of `TranslatorService`, in Python dict insertion order. -/
def TranslatorService.supported_languages : List (String × String) :=
  [("en", "eng_Latn"), ("ja", "jpn_Jpan"), ("fr", "fra_Latn")]

/-- The fixed source-language code of `TranslatorService`. -/
def TranslatorService.src_lang : String := "vie_Latn"

/-- Lift a translation-capability outcome into the exception type: a model call
raising is logged and re-raised unchanged. -/
def liftCapErr (r : Except String String) : Except PyExn String :=
  match r with
  | .ok t => .ok t
  | .error e => .error (.otherExn e)

/-- `TranslatorService.translate`: rejects a target code outside the fixed table
with a `ValueError` naming the code and the allowed set, else invokes the
translation capability exactly once with the fixed Vietnamese source code. -/
def TranslatorService.translate (cap : String → String → String → Except String String)
    (text target_lang : String) : Except PyExn String :=
  match TranslatorService.supported_languages.lookup target_lang with
  | none => .error (.valueError ("Unsupported target language \x27" ++ target_lang ++
      "\x27. Choose from: [\x27en\x27, \x27ja\x27, \x27fr\x27]"))
  | some tgt_lang => liftCapErr (cap text TranslatorService.src_lang tgt_lang)

/-! ## Synthesis Stage (`ai_service/conversion_service.py`) -/

/-- `VoiceSynthesisService.SUPPORTED_LANGUAGES`, in Python dict insertion order:
canonical codes, English names, and aliases for the three supported languages. -/
def VoiceSynthesisService.SUPPORTED_LANGUAGES : List (String × String) :=
  [("en", "en"), ("english", "en"), ("ja", "ja"), ("japanese", "ja"), ("jp", "ja"),
   ("fr", "fr"), ("french", "fr"), ("français", "fr")]

/-- `VoiceSynthesisService._normalize_language_code` (leading underscore dropped):
empty input defaults to `"en"`; otherwise the lowercased, stripped input is looked
up exactly, then by prefix in either direction, then defaulted to `"en"`. -/
def VoiceSynthesisService.normalize_language_code (language : String) : String :=
  if language = "" then "en"
  else
    let language_lower := pyStrip (pyLower language)
    match VoiceSynthesisService.SUPPORTED_LANGUAGES.lookup language_lower with
    | some code => code
    | none =>
      match VoiceSynthesisService.SUPPORTED_LANGUAGES.find?
          (fun kv => pyStartsWith language_lower kv.1 || pyStartsWith kv.1 language_lower) with
      | some kv => kv.2
      | none => "en"

/-- The spec's three-step normalization policy, stated in the spec's own terms for
comparison with the implementation: exact (case-insensitive, trimmed) match against
the canonical table, else the first table entry matched by the prefix tolerance
(locale suffixes: the input starts with the key; partial names: the key starts with
the input), else the baseline code `"en"`.  Total by construction: it never raises
and never fails the request. -/
def normalizeLanguagePolicy (language : String) : String :=
  let key := pyStrip (pyLower language)
  match VoiceSynthesisService.SUPPORTED_LANGUAGES.lookup key with
  | some code => code
  | none =>
    match VoiceSynthesisService.SUPPORTED_LANGUAGES.find?
        (fun kv => pyStartsWith key kv.1 || pyStartsWith kv.1 key) with
    | some kv => kv.2
    | none => "en"

/-- `VoiceSynthesisService` with its two loaded models as opaque capabilities. -/
structure VoiceSynthesisService where
  /-- `xtts_model.get_conditioning_latents`: reads the reference audio file. -/
  cond : FS → String → Except String Nat
  /-- `xtts_model.inference`: text, normalized language code, latents → waveform. -/
  infer : String → String → Nat → Except String (List Nat)
  /-- `vc_model.voice_conversion_to_file`: waveform, reference path, output path;
  transforms the filesystem (the capability decides what is written where). -/
  vc_to_file : List Nat → String → String → FS → Except String FS

/-- `VoiceSynthesisService.synthesize`: normalize the language code, require the
reference audio to exist, extract conditioning latents, run XTTS inference, then
voice-convert to `output_path` (`os.makedirs` on the output directory does not
touch the file map).  Capability failures re-raise. -/
def VoiceSynthesisService.synthesize (svc : VoiceSynthesisService) (fs : FS)
    (text reference_audio_path output_path language : String) : FS × Except PyExn String :=
  let normalized_language := VoiceSynthesisService.normalize_language_code language
  if fsExists fs reference_audio_path = false then
    (fs, .error (.fileNotFound ("Reference audio file not found: " ++ reference_audio_path)))
  else
    match svc.cond fs reference_audio_path with
    | .error e => (fs, .error (.otherExn e))
    | .ok latents =>
      match svc.infer text normalized_language latents with
      | .error e => (fs, .error (.otherExn e))
      | .ok wav =>
        match svc.vc_to_file wav reference_audio_path output_path fs with
        | .error e => (fs, .error (.otherExn e))
        | .ok fs1 => (fs1, .ok output_path)

/-! ## Transcription Stage (`ai_service/transcript_service.py`) -/

/-- `TranscriptService` state: the model-loaded flags plus the loaded capabilities.
`asr` folds the pure mono/resample/normalize preprocessing together with the
Whisper call of `transcribe` steps 5-6; `corrector` is the correction pipeline. -/
structure TranscriptService where
  asr_loaded : Bool
  correction_loaded : Bool
  asr : List Nat → Except String String
  corrector : String → Except String String

/-- Audio-library environment used by `transcribe`: pydub decode
(`AudioSegment.from_file`: filesystem, path, format), pydub `export` (the WAV bytes
it produces), and `soundfile.read` on file contents. -/
structure AudioEnv where
  fromFile : FS → String → String → Except String (List Nat)
  exportSeg : List Nat → Except String (List Nat)
  sfRead : List Nat → Except String (List Nat)

/-- `TranscriptService._validate_audio_file` (leading underscore dropped): the file
exists, is non-empty, and its header is readable; every `FS` entry is a regular
file, so the `os.path.isfile` check coincides with existence. -/
def TranscriptService.validate_audio_file (env : AudioEnv) (fs : FS) (p : String) : Bool :=
  fsExists fs p && (fsSize fs p != 0) && (env.sfRead (fsGet fs p)).isOk

/-- Steps 2-6 of `TranscriptService.transcribe` after the optional format
conversion: validate the (possibly converted) file, load its samples, delete the
conversion temporary (`convertedTmp`) when one was made, run preprocessing plus
Whisper (the `asr` capability), and strip the decoded text. -/
def TranscriptService.transcribeLoaded (svc : TranscriptService) (env : AudioEnv)
    (convertedTmp : Option String) (fs : FS) (audio_path : String) :
    FS × Except PyExn String :=
  if TranscriptService.validate_audio_file env fs audio_path = false then
    (fs, .error (.valueError ("Invalid audio file: " ++ audio_path)))
  else
    match env.sfRead (fsGet fs audio_path) with
    | .error e => (fs, .error (.otherExn e))
    | .ok audio =>
      let fs1 := match convertedTmp with
        | some tmp => fsRemove fs tmp
        | none => fs
      match svc.asr audio with
      | .error e => (fs1, .error (.otherExn e))
      | .ok raw_transcript => (fs1, .ok (pyStrip raw_transcript))

/-- `TranscriptService.transcribe`: fail fast when ASR is not loaded; convert a
non-WAV input to a temporary WAV first (`tmpPath` stands for the fresh name handed
out by `tempfile.NamedTemporaryFile`, which creates the empty temporary before
`export` fills it); conversion failures re-raise as `ValueError`. -/
def TranscriptService.transcribe (svc : TranscriptService) (env : AudioEnv)
    (tmpPath : String) (fs : FS) (audio_path : String) : FS × Except PyExn String :=
  if svc.asr_loaded = false then (fs, .error (.runtimeError "ASR model not loaded"))
  else
    let suffix := pyLower (pySuffix audio_path)
    if suffix = ".wav" then TranscriptService.transcribeLoaded svc env none fs audio_path
    else
      match env.fromFile fs audio_path (lstripDot suffix) with
      | .error e =>
        (fs, .error (.valueError ("Cannot convert " ++ suffix ++ " to WAV: " ++ e)))
      | .ok seg =>
        let fs1 := fsWrite fs tmpPath []
        match env.exportSeg seg with
        | .error e =>
          (fs1, .error (.valueError ("Cannot convert " ++ suffix ++ " to WAV: " ++ e)))
        | .ok bytes =>
          TranscriptService.transcribeLoaded svc env (some tmpPath)
            (fsWrite fs1 tmpPath bytes) tmpPath

/-- `TranscriptService.correct_text`: empty (after strip) input yields `""`; an
unloaded correction model returns the raw text unchanged; a correction-capability
failure is caught and the raw text returned; otherwise the corrected output is
stripped and returned. -/
def TranscriptService.correct_text (svc : TranscriptService) (raw_text : String) : String :=
  if pyStrip raw_text = "" then ""
  else if svc.correction_loaded = false then raw_text
  else
    match svc.corrector raw_text with
    | .ok output => pyStrip output
    | .error _ => raw_text

/-- Result dict of `TranscriptService.process_audio`. -/
structure ProcessResult where
  raw_transcript : String
  corrected_transcript : String
  status : String
  error : Option String
  deriving DecidableEq

/-- `TranscriptService.process_audio`: the full pipeline; a transcription failure
is a tagged error result, a correction failure falls back to the raw transcript
(inside `correct_text`) and the result still reports success. -/
def TranscriptService.process_audio (svc : TranscriptService) (env : AudioEnv)
    (tmpPath : String) (fs : FS) (audio_path : String) : FS × ProcessResult :=
  if svc.asr_loaded = false then
    (fs, ⟨"", "", "error", some "ASR model not loaded - cannot process audio"⟩)
  else
    match TranscriptService.transcribe svc env tmpPath fs audio_path with
    | (fs1, .error e) =>
      (fs1, ⟨"", "", "error", some ("Transcription failed: " ++ e.msg)⟩)
    | (fs1, .ok raw) =>
      (fs1, ⟨raw, TranscriptService.correct_text svc raw, "success", none⟩)

/-! ## Stores (`backend/utils.py`) -/

/-- One Artifact Store entry, as written by `save_audio_in_memory_and_disk`. -/
structure Artifact where
  filename : Option String
  content : List Nat
  content_type : Option String
  file_path : String
  upload_time : Nat
  deriving DecidableEq

/-- One `voice_conversions` record. -/
structure VoiceConversionRec where
  audio_path : String
  text : String
  audio_url : String
  deriving DecidableEq

/-- One Session (transcript-storage) entry; `Option` models dict keys that may be
absent. -/
structure SessionRec where
  raw_transcript : Option String
  corrected_transcript : Option String
  translated_transcript : Option String
  voice_conversions : Option (List (String × VoiceConversionRec))
  status : Option String
  deriving DecidableEq

/-- The empty dict `{}`. -/
def SessionRec.empty : SessionRec := ⟨none, none, none, none, none⟩

/-- The two process-wide keyed stores. -/
structure Stores where
  audio : List (String × Artifact)
  transcripts : List (String × SessionRec)
  deriving DecidableEq

/-- Dict insert-or-replace on the transcript store. -/
def storesSetTranscript (st : Stores) (id : String) (s : SessionRec) : Stores :=
  { st with transcripts := (id, s) :: st.transcripts.filter (fun e => e.1 != id) }

/-- Dict insert-or-replace on the audio store. -/
def storesSetAudio (st : Stores) (id : String) (a : Artifact) : Stores :=
  { st with audio := (id, a) :: st.audio.filter (fun e => e.1 != id) }

/-! ## Upload route (`backend/routers/audios.py`) -/

/-- The fixed extension allow-list of `check_audio_format`. -/
def ALLOWED_FORMATS : List String := [".wav", ".mp3", ".m4a", ".flac", ".ogg", ".aac", ".webm"]

/-- `check_audio_format`: ok, or the `UnsupportedFileFormatException` (status 415)
raised when the lowercased filename ends with none of the allow-listed extensions. -/
def check_audio_format (filename : String) : Except HErr Unit :=
  if ALLOWED_FORMATS.any (fun fmt => pyEndsWith (pyLower filename) fmt) then .ok ()
  else .error ⟨415,
    "Unsupported file format. Supported formats: .wav, .mp3, .m4a, .flac, .ogg, .aac, .webm"⟩

/-- Directory used by `save_audio_in_memory_and_disk` (`tempfile.gettempdir()`
joined with `audio_uploads`). -/
def TEMP_AUDIO_DIR : String := "/tmp/audio_uploads/"

/-- Response dict of a successful upload. -/
structure UploadResponse where
  id : String
  filename : Option String
  message : String
  size : Nat
  deriving DecidableEq

/-- `upload_audio` route (`POST /audios/`).  `freshId` stands for `uuid.uuid4()`
and `now` for `datetime.now()`.  Format check first (caught as 415 with the
starlette-rendered `str(e)`), then the empty-content check; the route's generic
`except Exception` clause re-wraps the internal `HTTPException(400, "Empty file
uploaded")` into a 500 whose detail embeds `str(e) = "400: Empty file uploaded"`.
Otherwise `save_audio_in_memory_and_disk` writes the bytes to disk and records the
dual entry. -/
def upload_audio (freshId : String) (now : Nat) (st : Stores) (fs : FS)
    (filename : Option String) (content_type : Option String) (contents : List Nat) :
    (Stores × FS) × Except HErr UploadResponse :=
  match check_audio_format (filename.getD "") with
  | .error e => ((st, fs), .error ⟨415, HErr.str e⟩)
  | .ok _ =>
    if contents.length = 0 then
      ((st, fs), .error ⟨500, "Upload failed: " ++ HErr.str ⟨400, "Empty file uploaded"⟩⟩)
    else
      let ext := pySuffix (pyOrElse filename "audio.wav")
      let path := TEMP_AUDIO_DIR ++ freshId ++ ext
      let art : Artifact := ⟨filename, contents, content_type, path, now⟩
      ((storesSetAudio st freshId art, fsWrite fs path contents),
        .ok ⟨freshId, filename, "Audio uploaded successfully", contents.length⟩)

/-! ## Transcript routes (`backend/routers/transcript.py`) -/

/-- Response model of the transcript routes. -/
structure TranscriptResponse where
  id : String
  raw_transcript : Option String
  corrected_transcript : String
  status : String
  message : String
  deriving DecidableEq

/-- `update_transcript` route (`PUT /audios/id/transcript`): requires the Artifact,
a non-empty stripped body, and a Language Guard pass; only then is the Session
entry created (if absent) and updated with the new corrected transcript and the
`updated` status. -/
def update_transcript (detect : String → Except Unit String) (st : Stores)
    (id transcript : String) : Stores × Except HErr TranscriptResponse :=
  if (st.audio.lookup id).isNone then (st, .error ⟨404, "Audio not found"⟩)
  else
    let new_transcript := pyStrip transcript
    if new_transcript = "" then (st, .error ⟨400, "Transcript cannot be empty"⟩)
    else
      match is_vietnamese_transcript detect new_transcript with
      | (is_vn, detected_lang) =>
        if is_vn = false then
          (st, .error ⟨400, "Transcript is not in Vietnamese. Detected: " ++
            pyUpper detected_lang ++ ". Please provide Vietnamese text."⟩)
        else
          let cur := (st.transcripts.lookup id).getD SessionRec.empty
          let upd := { cur with corrected_transcript := some new_transcript,
                                status := some "updated" }
          (storesSetTranscript st id upd,
            .ok ⟨id, upd.raw_transcript, new_transcript, "updated",
              "Transcript updated successfully"⟩)

/-! ## Conversion routes (`backend/routers/conversion.py`) -/

/-- Response model of the translate route. -/
structure TranslationResponse where
  id : String
  translated_text : String
  message : String
  deriving DecidableEq

/-- `translate_text_only` route (`POST /audios/id/translate`): requires a Session
with a non-empty corrected-or-raw transcript; a `ValueError` (unsupported target)
or model failure raised inside `translate` is mapped by the route's
`except Exception` clause to a 500 "Translation failed"; only on success is the
`translated_transcript` slot written. -/
def translate_text_only (cap : String → String → String → Except String String)
    (st : Stores) (id target_language : String) : Stores × Except HErr TranslationResponse :=
  match st.transcripts.lookup id with
  | none => (st, .error ⟨404, "Transcript not found"⟩)
  | some sess =>
    let vietnamese_text := pyOrElse sess.corrected_transcript (sess.raw_transcript.getD "")
    if vietnamese_text = "" then (st, .error ⟨400, "No transcript to translate"⟩)
    else
      match TranslatorService.translate cap vietnamese_text target_language with
      | .error _ => (st, .error ⟨500, "Translation failed"⟩)
      | .ok translated =>
        let upd := { sess with translated_transcript := some translated }
        (storesSetTranscript st id upd, .ok ⟨id, translated, "Translation successful"⟩)

/-- Output path used by `synthesize_voice`: `os.path.join("static/converted",
"converted_<uuid-hex-8>_<language>.wav")` with backslashes normalized; `fresh`
stands for `uuid.uuid4().hex[:8]`. -/
def synthOutputPath (fresh language : String) : String :=
  pyReplace ("static/converted/" ++ ("converted_" ++ fresh ++ "_" ++ language ++ ".wav"))
    "\\" "/"

/-- `synthesize_voice` from `backend/routers/conversion.py`: builds the output
path, calls `VoiceSynthesisService.synthesize`, normalizes the returned path, and
raises `FileNotFoundError` when the synthesized file does not exist (its size is
only logged); any error from `synthesize` re-raises. -/
def synthesize_voice (svc : VoiceSynthesisService) (fresh : String) (fs : FS)
    (audio_path text language : String) : FS × Except PyExn String :=
  let output_path := synthOutputPath fresh language
  match VoiceSynthesisService.synthesize svc fs text audio_path output_path language with
  | (fs1, .error e) => (fs1, .error e)
  | (fs1, .ok rp) =>
    let result_path := pyReplace rp "\\" "/"
    if fsExists fs1 result_path = false then
      (fs1, .error (.fileNotFound ("Synthesized audio file not created: " ++ result_path)))
    else
      (fs1, .ok result_path)

/-- Response model of the voice-conversion route. -/
structure VoiceConversionResponse where
  id : String
  converted_audio_url : String
  audio_file_path : String
  target_language : String
  synthesized_text : String
  message : String
  deriving DecidableEq

/-- The text-selection priority the spec states for voice conversion, in the
spec's own terms for comparison: caller-supplied text if non-empty, else the
stored translation if non-empty, else the corrected-or-raw transcript. -/
def voiceTextPriority (reqText : Option String) (sess : SessionRec) : String :=
  if optTruthy reqText then reqText.getD ""
  else if optTruthy sess.translated_transcript then sess.translated_transcript.getD ""
  else pyOrElse sess.corrected_transcript (sess.raw_transcript.getD "")

/-- The `try` block of `convert_voice_with_language`, from `get_audio_file`
onwards, once the text to synthesize has been chosen: `get_audio_file` raises
`FileNotFoundError` (mapped to a 404) when the backing file is gone; a
`FileNotFoundError` out of synthesis maps to the same 404, any other exception —
including the internal `HTTPException(500, "Synthesized audio not found")` — to a
wrapped 500; on success the per-language `voice_conversions` record is written. -/
def convertVoiceTail (svc : VoiceSynthesisService) (fresh : String)
    (st : Stores) (fs : FS) (id target_language : String) (sess : SessionRec)
    (text_to_synthesize : String) :
    (Stores × FS) × Except HErr VoiceConversionResponse :=
  let art := (st.audio.lookup id).getD ⟨none, [], none, "", 0⟩
  if fsExists fs art.file_path = false then
    ((st, fs), .error ⟨404, "Audio file not found on disk"⟩)
  else
    match synthesize_voice svc fresh fs art.file_path text_to_synthesize
        target_language with
    | (fs1, .error (.fileNotFound _)) =>
      ((st, fs1), .error ⟨404, "Audio file not found on disk"⟩)
    | (fs1, .error e) =>
      ((st, fs1), .error ⟨500, "Voice conversion failed: " ++ e.msg⟩)
    | (fs1, .ok synth_path) =>
      if fsExists fs1 synth_path = false then
        ((st, fs1), .error ⟨500,
          "Voice conversion failed: " ++ HErr.str ⟨500, "Synthesized audio not found"⟩⟩)
      else
        let converted_audio_url :=
          "/static/" ++ pyReplace (pyReplace synth_path "static/" "") "\\" "/"
        let vcs := sess.voice_conversions.getD []
        let vcs1 := (target_language,
            (⟨synth_path, text_to_synthesize, converted_audio_url⟩ : VoiceConversionRec)) ::
          vcs.filter (fun e => e.1 != target_language)
        let sess1 := { sess with voice_conversions := some vcs1 }
        ((storesSetTranscript st id sess1, fs1),
          .ok ⟨id, converted_audio_url, synth_path, target_language,
            text_to_synthesize, "Voice conversion successful"⟩)

/-- `convert_voice_with_language` route (`POST /audios/id/voice-conversion`):
requires Session and Artifact; chooses the text to synthesize (caller text, else
stored translation, else corrected-or-raw transcript), rejecting with 400 when
everything is empty; then runs the synthesis tail above. -/
def convert_voice_with_language (svc : VoiceSynthesisService) (fresh : String)
    (st : Stores) (fs : FS) (id target_language : String) (reqText : Option String) :
    (Stores × FS) × Except HErr VoiceConversionResponse :=
  match st.transcripts.lookup id with
  | none => ((st, fs), .error ⟨404, "Transcript not found"⟩)
  | some sess =>
    if (st.audio.lookup id).isNone then ((st, fs), .error ⟨404, "Audio not found"⟩)
    else
      let text_to_synthesize :=
        if optTruthy reqText then reqText.getD ""
        else if optTruthy sess.translated_transcript then sess.translated_transcript.getD ""
        else pyOrElse sess.corrected_transcript (sess.raw_transcript.getD "")
      if text_to_synthesize = "" then
        ((st, fs), .error ⟨400,
          "No text available for synthesis. Please provide text or translate first."⟩)
      else
        convertVoiceTail svc fresh st fs id target_language sess text_to_synthesize

/-! ## Derived predicates -/

/-- Every Artifact Store entry holds non-empty in-memory content and a non-empty
backing file. -/
def uploadInvariant (st : Stores) (fs : FS) : Prop :=
  ∀ e ∈ st.audio, e.2.content ≠ [] ∧ fsSize fs e.2.file_path ≠ 0

/-- Does an upload outcome carry a 4xx client-error status? -/
def isClientError (r : Except HErr UploadResponse) : Bool :=
  match r with
  | .error e => 400 ≤ e.code && e.code < 500
  | .ok _ => false

/-! ## Concrete capability and store fixtures used by witnesses -/

/-- A detection capability that always reports Vietnamese. -/
def detectAlwaysVI : String → Except Unit String := fun _ => .ok "VI"

/-- A detection capability that always reports English. -/
def detectAlwaysEN : String → Except Unit String := fun _ => .ok "EN"

/-- A translation capability that always raises. -/
def capAlwaysFails : String → String → String → Except String String :=
  fun _ _ _ => .error "model error"

/-- A translation capability that always succeeds. -/
def capBonjour : String → String → String → Except String String :=
  fun _ _ _ => .ok "bonjour"

/-- Stores with one uploaded Artifact and its completed Session. -/
def stOne : Stores :=
  ⟨[("id1", ⟨some "a.wav", [1], none, "/tmp/audio_uploads/id1.wav", 0⟩)],
   [("id1", ⟨some "xin chào các bạn nhé", some "xin chào các bạn nhé", none, none,
     some "completed"⟩)]⟩

/-- Stores with one Artifact whose Session carries only a stored translation. -/
def stTranslated : Stores :=
  ⟨[("id1", ⟨some "a.wav", [1], none, "/tmp/audio_uploads/id1.wav", 0⟩)],
   [("id1", ⟨none, none, some "bonjour", none, some "completed"⟩)]⟩

/-- Stores with one Artifact whose Session holds no text at all. -/
def stEmptySession : Stores :=
  ⟨[("id1", ⟨some "a.wav", [1], none, "/tmp/audio_uploads/id1.wav", 0⟩)],
   [("id1", SessionRec.empty)]⟩

/-- Filesystem backing the fixtures above. -/
def fsOne : FS := [("/tmp/audio_uploads/id1.wav", [1])]

/-- A synthesis service whose voice-conversion model reports success but writes
zero bytes at the requested path. -/
def svcWritesEmpty : VoiceSynthesisService :=
  ⟨fun _ _ => .ok 0, fun _ _ _ => .ok [1], fun _ _ out fs => .ok (fsWrite fs out [])⟩

/-- A synthesis service whose voice-conversion model reports success without
creating the requested output file. -/
def svcWritesNothing : VoiceSynthesisService :=
  ⟨fun _ _ => .ok 0, fun _ _ _ => .ok [1], fun _ _ _ fs => .ok fs⟩

/-- A synthesis service whose voice-conversion model writes a non-empty file at
the requested path. -/
def svcWritesGood : VoiceSynthesisService :=
  ⟨fun _ _ => .ok 0, fun _ _ _ => .ok [1], fun _ _ out fs => .ok (fsWrite fs out [7, 7])⟩

/-- Reference audio for the synthesis fixtures. -/
def fsRef : FS := [("ref.wav", [5, 5])]

/-- An audio environment whose converted output is unreadable by `soundfile`. -/
def envCorrupt : AudioEnv :=
  ⟨fun _ _ _ => .ok [9], fun _ => .ok [8], fun _ => .error "unreadable"⟩

/-- An audio environment where every library call succeeds. -/
def envOk : AudioEnv :=
  ⟨fun _ _ _ => .ok [9], fun _ => .ok [8], fun _ => .ok [4]⟩

/-- A transcript service with ASR loaded and no correction model. -/
def svcAsrOnly : TranscriptService :=
  ⟨true, false, fun _ => .ok "xin chao", fun s => .ok s⟩

/-- Filesystem holding one non-WAV upload. -/
def fsMp3 : FS := [("/tmp/audio_uploads/id2.mp3", [1, 2])]

/-- Filesystem holding one WAV upload. -/
def fsWav : FS := [("/tmp/audio_uploads/id3.wav", [1, 2])]

/-! ## Helper lemmas -/

theorem stripChars_double_nil {l : List Char} (h : stripChars (stripChars l) = []) :
    stripChars l = [] := by
  cases hsl : stripChars l with
  | nil => rfl
  | cons a m =>
    exfalso
    obtain ⟨t, ht⟩ := List.rdropWhile_prefix isPySpace (l.dropWhile isPySpace)
    have hd : l.dropWhile isPySpace = a :: (m ++ t) := by
      have h1 : stripChars l ++ t = l.dropWhile isPySpace := ht
      rw [hsl] at h1
      simpa using h1.symm
    have hna : isPySpace a = false := by
      have hdne : l.dropWhile isPySpace ≠ [] := by rw [hd]; simp
      have h2 := List.head_dropWhile_not isPySpace l hdne
      simp only [hd, List.head_cons] at h2
      exact h2
    rw [hsl] at h
    unfold stripChars at h
    rw [List.dropWhile_cons, hna] at h
    simp only [Bool.false_eq_true, if_false] at h
    have h3 := List.rdropWhile_eq_nil_iff.mp h
    have h4 := h3 a (by simp)
    rw [hna] at h4
    exact Bool.false_ne_true h4

theorem pyStrip_double_empty {s : String} (h : pyStrip (pyStrip s) = "") :
    pyStrip s = "" := by
  have hd : stripChars (stripChars s.data) = [] := by
    have h1 := congrArg String.data h
    exact h1
  have h2 := stripChars_double_nil hd
  show String.mk (stripChars s.data) = ""
  rw [h2]

/-! ## C1: short-text rejection by the Language Guard -/

/-- C1: for every text whose trimmed length is under 10 characters (the empty
string included), `is_vietnamese_transcript` returns
`(is_source_language, detected_code) = (false, "text_too_short")` for every
behavior of the underlying detection capability — the detector is therefore
never consulted. -/
theorem short_text_is_rejected (detect : String → Except Unit String) (transcript : String)
    (h : (pyStrip transcript).length < 10) :
    is_vietnamese_transcript detect transcript = (false, "text_too_short") := by
  unfold is_vietnamese_transcript
  rw [if_pos (Or.inr h)]

/-- C1 witness: the 5-character text "hello" is rejected as too short even when
the detection capability would classify it as Vietnamese. -/
theorem short_text_is_rejected_witness :
    (pyStrip "hello").length < 10 ∧
      is_vietnamese_transcript detectAlwaysVI "hello" = (false, "text_too_short") :=
  ⟨by decide, short_text_is_rejected detectAlwaysVI "hello" (by decide)⟩

/-! ## C4: total three-step language-code normalization -/

/-- C4: `_normalize_language_code` is total (it returns a `String` for every
input, never raising and never failing the request) and follows the spec's
three-step policy in order: exact case-insensitive trimmed match against the
canonical table, else the first table entry matching by prefix in either
direction (the spec's prefix/contains tolerance for locale suffixes and partial
names), else the baseline code `"en"`. -/
theorem normalize_language_code_policy (language : String) :
    VoiceSynthesisService.normalize_language_code language =
      normalizeLanguagePolicy language := by
  by_cases h : language = ""
  · subst h; decide
  · unfold VoiceSynthesisService.normalize_language_code normalizeLanguagePolicy
    rw [if_neg h]

/-! ## C6: translation target-language validation -/

/-- C6: a target code outside the fixed set {en, ja, fr} makes `translate` fail
with a `ValueError` whose message names the rejected code and the allowed set,
for every behavior of the translation capability (which is therefore not
invoked); a member code makes `translate` invoke the capability exactly once,
with the fixed Vietnamese source code `vie_Latn` and the mapped target code. -/
theorem translate_validates_target_language
    (cap : String → String → String → Except String String) (text target_lang : String) :
    ((TranslatorService.supported_languages.lookup target_lang).isNone = true →
      TranslatorService.translate cap text target_lang =
        .error (.valueError ("Unsupported target language \x27" ++ target_lang ++
          "\x27. Choose from: [\x27en\x27, \x27ja\x27, \x27fr\x27]"))) ∧
    (∀ tgt_code, TranslatorService.supported_languages.lookup target_lang = some tgt_code →
      TranslatorService.translate cap text target_lang =
        liftCapErr (cap text TranslatorService.src_lang tgt_code)) := by
  constructor
  · intro hnone
    unfold TranslatorService.translate
    cases hl : TranslatorService.supported_languages.lookup target_lang with
    | none => rfl
    | some v => rw [hl] at hnone; simp at hnone
  · intro tgt_code hsome
    unfold TranslatorService.translate
    rw [hsome]

/-- C6 witness: the unsupported code "de" is rejected with the message naming it
and the allowed set, whatever the capability would do; the member code "fr" leads
to exactly one capability call with source `vie_Latn` and target `fra_Latn`. -/
theorem translate_validates_target_language_witness :
    (TranslatorService.translate capBonjour "xin chào" "de" =
      .error (.valueError ("Unsupported target language \x27de\x27. " ++
        "Choose from: [\x27en\x27, \x27ja\x27, \x27fr\x27]"))) ∧
    TranslatorService.translate capBonjour "xin chào" "fr" =
      liftCapErr (capBonjour "xin chào" TranslatorService.src_lang "fra_Latn") :=
  ⟨by
    have h := (translate_validates_target_language capBonjour "xin chào" "de").1 (by decide)
    simpa using h,
   (translate_validates_target_language capBonjour "xin chào" "fr").2 "fra_Latn" (by decide)⟩

/-! ## C2: failed stages leave the Session untouched -/

/-- C2: an `update_transcript` call rejected with any typed error (missing
Artifact, empty body, Language Guard rejection such as English text on an
existing id) and a `translate_text_only` call rejected with any typed error
(missing Session, empty transcript, capability failure) both leave every stored
Session field — and the whole store — exactly at its prior value: no
half-populated write occurs. -/
theorem failed_stage_leaves_session_unchanged
    (detect : String → Except Unit String)
    (cap : String → String → String → Except String String)
    (st : Stores) (id t lang : String) :
    (∀ st1 r e, update_transcript detect st id t = (st1, r) →
      r = Except.error e → st1 = st) ∧
    (∀ st1 r e, translate_text_only cap st id lang = (st1, r) →
      r = Except.error e → st1 = st) := by
  constructor
  · intro st1 r e hu hr
    subst hr
    unfold update_transcript at hu
    dsimp only at hu
    split at hu
    · simp_all
    · split at hu
      · simp_all
      · split at hu
        · simp_all
        · simp_all
  · intro st1 r e htl hr
    subst hr
    unfold translate_text_only at htl
    split at htl
    · simp_all
    · dsimp only at htl
      split at htl
      · simp_all
      · split at htl
        · simp_all
        · simp_all

/-- C2 witness: on a store holding a completed Vietnamese Session, an update
with English text fails and leaves the store unchanged, and a translate call
whose capability raises fails and leaves the store unchanged. -/
theorem failed_stage_leaves_session_unchanged_witness :
    (update_transcript detectAlwaysEN stOne "id1" "This is English text").1 = stOne ∧
    (translate_text_only capAlwaysFails stOne "id1" "en").1 = stOne :=
  ⟨(failed_stage_leaves_session_unchanged detectAlwaysEN capAlwaysFails stOne "id1"
      "This is English text" "en").1
    (update_transcript detectAlwaysEN stOne "id1" "This is English text").1
    (update_transcript detectAlwaysEN stOne "id1" "This is English text").2
    ⟨400, "Transcript is not in Vietnamese. Detected: EN. Please provide Vietnamese text."⟩
    rfl (by decide),
   (failed_stage_leaves_session_unchanged detectAlwaysEN capAlwaysFails stOne "id1"
      "This is English text" "en").2
    (translate_text_only capAlwaysFails stOne "id1" "en").1
    (translate_text_only capAlwaysFails stOne "id1" "en").2
    ⟨500, "Translation failed"⟩
    rfl (by decide)⟩

/-! ## C7: upload extension allow-list -/

/-- C7: an upload whose lowercased filename ends with none of the allow-listed
extensions fails with the 415 `UnsupportedFormat` error and leaves both stores
and the filesystem unchanged (no Artifact id is created); an upload with an
allow-listed extension and non-empty content succeeds with the fresh id, which
is then newly present in the Artifact Store. -/
theorem upload_format_allowlist (freshId : String) (now : Nat) (st : Stores) (fs : FS)
    (filename : Option String) (ctype : Option String) (contents : List Nat) :
    ((ALLOWED_FORMATS.any (fun fmt => pyEndsWith (pyLower (filename.getD "")) fmt)) = false →
      upload_audio freshId now st fs filename ctype contents =
        ((st, fs), .error ⟨415, "415: Unsupported file format. Supported formats: " ++
          ".wav, .mp3, .m4a, .flac, .ogg, .aac, .webm"⟩)) ∧
    ((ALLOWED_FORMATS.any (fun fmt => pyEndsWith (pyLower (filename.getD "")) fmt)) = true →
      contents.length ≠ 0 →
      (st.audio.lookup freshId).isNone = true →
      (upload_audio freshId now st fs filename ctype contents).2 =
        .ok ⟨freshId, filename, "Audio uploaded successfully", contents.length⟩ ∧
      ((upload_audio freshId now st fs filename ctype contents).1.1.audio.lookup
        freshId).isSome = true) := by
  constructor
  · intro hno
    unfold upload_audio check_audio_format
    rw [hno]
    simp only [Bool.false_eq_true, if_false]
    refine congrArg (Prod.mk (st, fs)) (congrArg Except.error ?_)
    refine congrArg (HErr.mk 415) ?_
    decide
  · intro hyes hne _
    unfold upload_audio check_audio_format
    rw [hyes]
    simp only [if_true]
    rw [if_neg hne]
    refine ⟨rfl, ?_⟩
    simp [storesSetAudio, List.lookup]

/-- C7 witness: a `.txt` upload is rejected with 415 and changes nothing; an
upload named with the (case-insensitively allow-listed) extension `.WAV` and
non-empty bytes yields the fresh id, newly present in the store. -/
theorem upload_format_allowlist_witness :
    upload_audio "f1" 0 ⟨[], []⟩ [] (some "notes.txt") none [1] =
      (((⟨[], []⟩ : Stores), ([] : FS)), .error ⟨415,
        "415: Unsupported file format. Supported formats: " ++
        ".wav, .mp3, .m4a, .flac, .ogg, .aac, .webm"⟩) ∧
    (upload_audio "f1" 0 ⟨[], []⟩ [] (some "voice.WAV") none [1, 2]).2 =
      .ok ⟨"f1", some "voice.WAV", "Audio uploaded successfully", 2⟩ ∧
    ((upload_audio "f1" 0 ⟨[], []⟩ [] (some "voice.WAV") none [1, 2]).1.1.audio.lookup
      "f1").isSome = true :=
  ⟨(upload_format_allowlist "f1" 0 ⟨[], []⟩ [] (some "notes.txt") none [1]).1 (by decide),
   (upload_format_allowlist "f1" 0 ⟨[], []⟩ [] (some "voice.WAV") none [1, 2]).2
     (by decide) (by decide) (by decide)⟩

/-! ## C5: correction failures degrade, never fail the request -/

theorem transcribe_ok_asr_loaded (svc : TranscriptService) (env : AudioEnv)
    (tmpPath : String) (fs fs1 : FS) (audio_path raw : String)
    (ht : TranscriptService.transcribe svc env tmpPath fs audio_path = (fs1, .ok raw)) :
    svc.asr_loaded = true := by
  by_contra hfalse
  have hb : svc.asr_loaded = false := by
    cases hl : svc.asr_loaded
    · rfl
    · exact absurd hl hfalse
  unfold TranscriptService.transcribe at ht
  rw [if_pos hb] at ht
  simp at ht

theorem transcribeLoaded_ok_is_stripped (svc : TranscriptService) (env : AudioEnv)
    (convertedTmp : Option String) (fs fs1 : FS) (audio_path raw : String)
    (ht : TranscriptService.transcribeLoaded svc env convertedTmp fs audio_path =
      (fs1, .ok raw)) :
    ∃ s, raw = pyStrip s := by
  unfold TranscriptService.transcribeLoaded at ht
  repeat' split at ht
  all_goals simp_all
  all_goals exact ⟨_, ht.2.symm⟩

theorem transcribe_ok_is_stripped (svc : TranscriptService) (env : AudioEnv)
    (tmpPath : String) (fs fs1 : FS) (audio_path raw : String)
    (ht : TranscriptService.transcribe svc env tmpPath fs audio_path = (fs1, .ok raw)) :
    ∃ s, raw = pyStrip s := by
  unfold TranscriptService.transcribe at ht
  dsimp only at ht
  split at ht
  · simp at ht
  · split at ht
    · exact transcribeLoaded_ok_is_stripped _ _ _ _ _ _ _ ht
    · split at ht
      · simp at ht
      · split at ht
        · simp at ht
        · exact transcribeLoaded_ok_is_stripped _ _ _ _ _ _ _ ht

theorem correct_text_of_correction_failure (svc : TranscriptService) (s : String)
    (hc : svc.correction_loaded = false ∨ (svc.corrector (pyStrip s)).isOk = false) :
    TranscriptService.correct_text svc (pyStrip s) = pyStrip s := by
  unfold TranscriptService.correct_text
  by_cases h0 : pyStrip (pyStrip s) = ""
  · rw [if_pos h0]
    exact (pyStrip_double_empty h0).symm
  · rw [if_neg h0]
    by_cases hl : svc.correction_loaded = false
    · rw [if_pos hl]
    · rw [if_neg hl]
      rcases hc with hc | hc
      · exact absurd hc hl
      · cases hcor : svc.corrector (pyStrip s) with
        | ok v => rw [hcor] at hc; simp [Except.isOk, Except.toBool] at hc
        | error v => rfl

/-- C5: whenever the ASR sub-step of `process_audio` produces a raw transcript
and the correction sub-capability is unavailable (`correction_loaded = false`) or
its invocation fails, the stage does not fail the overall request: the result
status is `success` and the raw transcript is returned unmodified as the
corrected transcript. -/
theorem correction_failure_degrades_gracefully
    (svc : TranscriptService) (env : AudioEnv) (tmpPath : String) (fs fs1 : FS)
    (audio_path raw : String)
    (ht : TranscriptService.transcribe svc env tmpPath fs audio_path = (fs1, .ok raw))
    (hc : svc.correction_loaded = false ∨ (svc.corrector raw).isOk = false) :
    TranscriptService.process_audio svc env tmpPath fs audio_path =
      (fs1, ⟨raw, raw, "success", none⟩) := by
  obtain ⟨s, hsraw⟩ := transcribe_ok_is_stripped svc env tmpPath fs fs1 audio_path raw ht
  have hl := transcribe_ok_asr_loaded svc env tmpPath fs fs1 audio_path raw ht
  subst hsraw
  unfold TranscriptService.process_audio
  rw [if_neg (by simp [hl]), ht]
  dsimp only
  rw [correct_text_of_correction_failure svc s hc]

/-- C5 witness: with no correction model loaded, a WAV transcription request
still succeeds and its corrected transcript equals the raw ASR output. -/
theorem correction_failure_degrades_gracefully_witness :
    TranscriptService.transcribe svcAsrOnly envOk "/tmp/conv.wav" fsWav
      "/tmp/audio_uploads/id3.wav" = (fsWav, .ok "xin chao") ∧
    svcAsrOnly.correction_loaded = false ∧
    TranscriptService.process_audio svcAsrOnly envOk "/tmp/conv.wav" fsWav
      "/tmp/audio_uploads/id3.wav" = (fsWav, ⟨"xin chao", "xin chao", "success", none⟩) :=
  ⟨by decide, by decide,
   correction_failure_degrades_gracefully svcAsrOnly envOk "/tmp/conv.wav" fsWav fsWav
     "/tmp/audio_uploads/id3.wav" "xin chao" (by decide) (Or.inl (by decide))⟩

/-! ## C8: the conversion temporary is leaked when validation fails -/

/-- C8 (failing input): transcribing the non-WAV upload
`/tmp/audio_uploads/id2.mp3` whose converted WAV fails validation (its header is
unreadable by `soundfile`) makes `transcribe` fail — yet the temporary WAV
`/tmp/conv.wav`, created by the format conversion, is still present in the
filesystem when the call returns: the cleanup step is only reached on the
success path, contradicting the deletion-regardless-of-failure requirement. -/
theorem temp_wav_leaked_on_validation_failure :
    (TranscriptService.transcribe svcAsrOnly envCorrupt "/tmp/conv.wav" fsMp3
        "/tmp/audio_uploads/id2.mp3").2 =
      .error (.valueError "Invalid audio file: /tmp/conv.wav") ∧
    fsExists (TranscriptService.transcribe svcAsrOnly envCorrupt "/tmp/conv.wav" fsMp3
        "/tmp/audio_uploads/id2.mp3").1 "/tmp/conv.wav" = true :=
  ⟨by decide, by decide⟩

/-! ## C3: synthesis output post-condition -/

/-- C3 counterexample: the claimed post-condition fails on the code.  First, a
voice-conversion model that reports success but writes zero bytes makes
`synthesize_voice` return success while the output file is empty — non-emptiness
is never verified.  Second, when the model reports success without creating the
file (an exception-free inference with a missing output), the stage raises a
plain `FileNotFoundError` — the very same exception constructor used for a
missing reference audio before inference — not a distinct `SynthesisIncomplete`
error, which exists nowhere in the code. -/
theorem synthesis_postcondition_counterexample :
    ((synthesize_voice svcWritesEmpty "u1" fsRef "ref.wav" "hi" "en").2 =
        .ok "static/converted/converted_u1_en.wav" ∧
      fsSize (synthesize_voice svcWritesEmpty "u1" fsRef "ref.wav" "hi" "en").1
        "static/converted/converted_u1_en.wav" = 0) ∧
    (synthesize_voice svcWritesNothing "u2" fsRef "ref.wav" "hi" "en").2 =
      .error (.fileNotFound
        "Synthesized audio file not created: static/converted/converted_u2_en.wav") ∧
    (synthesize_voice svcWritesNothing "u2" [] "missing.wav" "hi" "en").2 =
      .error (.fileNotFound "Reference audio file not found: missing.wav") :=
  ⟨⟨by decide, by decide⟩, by decide, by decide⟩

/-- C3 (amended): every `synthesize_voice` call that returns success leaves the
output file existing at the returned path (existence is verified; non-emptiness
is not, so a zero-byte output may be returned as success); and when the inference
pipeline itself raised no exception but the output file is missing, the stage
fails with a `FileNotFoundError` marking the file as not created — the same
exception type as other file errors, not a distinct `SynthesisIncomplete`. -/
theorem synthesis_output_existence (svc : VoiceSynthesisService) (fresh : String)
    (fs fs1 : FS) (audio_path text language rp : String) :
    (synthesize_voice svc fresh fs audio_path text language = (fs1, .ok rp) →
      fsExists fs1 rp = true) ∧
    (∀ fs2 op, VoiceSynthesisService.synthesize svc fs text audio_path
        (synthOutputPath fresh language) language = (fs2, .ok op) →
      fsExists fs2 (pyReplace op "\\" "/") = false →
      synthesize_voice svc fresh fs audio_path text language =
        (fs2, .error (.fileNotFound
          ("Synthesized audio file not created: " ++ pyReplace op "\\" "/")))) := by
  constructor
  · intro hok
    unfold synthesize_voice at hok
    dsimp only at hok
    split at hok
    · simp at hok
    · rename_i heqm
      split at hok
      · simp at hok
      · rw [Prod.mk.injEq, Except.ok.injEq] at hok
        obtain ⟨h1, h2⟩ := hok
        subst h1
        subst h2
        rename_i hex
        simp only [Bool.not_eq_false] at hex
        exact hex
  · intro fs2 op hs hmiss
    unfold synthesize_voice
    dsimp only
    rw [hs]
    dsimp only
    rw [hmiss]
    simp

/-- C3 witness: a model that writes a non-empty output yields success with the
file present afterwards; a model that writes nothing triggers the
`FileNotFoundError` for the computed output path after an exception-free
inference. -/
theorem synthesis_output_existence_witness :
    fsExists [("static/converted/converted_u3_en.wav", [7, 7]), ("ref.wav", [5, 5])]
      "static/converted/converted_u3_en.wav" = true ∧
    synthesize_voice svcWritesNothing "u2" fsRef "ref.wav" "hi" "en" =
      (fsRef, .error (.fileNotFound
        "Synthesized audio file not created: static/converted/converted_u2_en.wav")) :=
  ⟨(synthesis_output_existence svcWritesGood "u3" fsRef
      [("static/converted/converted_u3_en.wav", [7, 7]), ("ref.wav", [5, 5])]
      "ref.wav" "hi" "en" "static/converted/converted_u3_en.wav").1 (by decide),
   by
    have h := (synthesis_output_existence svcWritesNothing "u2" fsRef fsRef
      "ref.wav" "hi" "en" "unused").2 fsRef
      "static/converted/converted_u2_en.wav" (by decide) (by decide)
    simpa using h⟩

/-! ## C9: voice-conversion text priority -/

theorem convertVoiceTail_ok_text (svc : VoiceSynthesisService) (fresh : String)
    (st : Stores) (fs : FS) (id target_language : String) (sess : SessionRec)
    (text : String) (resp : VoiceConversionResponse)
    (hok : (convertVoiceTail svc fresh st fs id target_language sess text).2 = .ok resp) :
    resp.synthesized_text = text := by
  unfold convertVoiceTail at hok
  dsimp only at hok
  split at hok
  · simp at hok
  · split at hok
    · simp at hok
    · simp at hok
    · split at hok
      · simp at hok
      · dsimp only at hok
        rw [Except.ok.injEq] at hok
        subst hok
        rfl

/-- C9: on a store whose Session for `id` is `sess`, every successful
voice-conversion response synthesizes exactly the text selected by the strict
priority (caller-supplied text if non-empty, else the stored
`translated_transcript` if non-empty, else the corrected-or-raw transcript);
and when that priority yields the empty string while both Session and Artifact
exist, the request fails with the 400 validation error and no synthesis is
attempted: the outcome is the same for every synthesis service and filesystem,
which are never consulted, and the stores are left unchanged. -/
theorem voice_conversion_text_priority (svc : VoiceSynthesisService) (fresh : String)
    (st : Stores) (fs : FS) (id target_language : String) (reqText : Option String)
    (sess : SessionRec) (hs : st.transcripts.lookup id = some sess) :
    (∀ resp, (convert_voice_with_language svc fresh st fs id target_language reqText).2 =
        .ok resp → resp.synthesized_text = voiceTextPriority reqText sess) ∧
    (voiceTextPriority reqText sess = "" → (st.audio.lookup id).isSome = true →
      ∀ svc2 fresh2 fs2,
        convert_voice_with_language svc2 fresh2 st fs2 id target_language reqText =
          ((st, fs2), .error ⟨400,
            "No text available for synthesis. Please provide text or translate first."⟩)) := by
  have hrw : (if optTruthy reqText then reqText.getD ""
      else if optTruthy sess.translated_transcript then sess.translated_transcript.getD ""
      else pyOrElse sess.corrected_transcript (sess.raw_transcript.getD "")) =
      voiceTextPriority reqText sess := rfl
  constructor
  · intro resp hok
    unfold convert_voice_with_language at hok
    rw [hs] at hok
    dsimp only at hok
    rw [hrw] at hok
    by_cases hA : (st.audio.lookup id).isNone = true
    · rw [if_pos hA] at hok
      simp at hok
    · rw [if_neg hA] at hok
      by_cases hT : voiceTextPriority reqText sess = ""
      · rw [if_pos hT] at hok
        simp at hok
      · rw [if_neg hT] at hok
        exact convertVoiceTail_ok_text svc fresh st fs id target_language sess _ resp hok
  · intro hempty haud svc2 fresh2 fs2
    unfold convert_voice_with_language
    rw [hs]
    dsimp only
    rw [hrw]
    have hA : ¬ (st.audio.lookup id).isNone = true := by
      cases h : st.audio.lookup id
      · rw [h] at haud; simp at haud
      · simp
    rw [if_neg hA, if_pos hempty]

/-- C9 witness: with only a stored translation in the Session, the synthesized
text is that translation; with an entirely empty Session, the request fails with
the 400 validation error, for an arbitrary synthesis service, and leaves the
stores unchanged. -/
theorem voice_conversion_text_priority_witness :
    (convert_voice_with_language svcWritesGood "u4" stTranslated fsOne "id1" "fr" none).2 =
      .ok ⟨"id1", "/static/converted/converted_u4_fr.wav",
        "static/converted/converted_u4_fr.wav", "fr", "bonjour",
        "Voice conversion successful"⟩ ∧
    (convert_voice_with_language svcWritesGood "u4" stTranslated fsOne "id1" "fr"
        none).2.map VoiceConversionResponse.synthesized_text = .ok "bonjour" ∧
    convert_voice_with_language svcWritesNothing "u5" stEmptySession fsOne "id1" "en" none =
      ((stEmptySession, fsOne), .error ⟨400,
        "No text available for synthesis. Please provide text or translate first."⟩) := by
  refine ⟨by decide, ?_, ?_⟩
  · have h := (voice_conversion_text_priority svcWritesGood "u4" stTranslated fsOne "id1"
      "fr" none ⟨none, none, some "bonjour", none, some "completed"⟩ (by decide)).1
      ⟨"id1", "/static/converted/converted_u4_fr.wav",
        "static/converted/converted_u4_fr.wav", "fr", "bonjour",
        "Voice conversion successful"⟩ (by decide)
    rw [show (convert_voice_with_language svcWritesGood "u4" stTranslated fsOne "id1" "fr"
        none).2 = .ok ⟨"id1", "/static/converted/converted_u4_fr.wav",
        "static/converted/converted_u4_fr.wav", "fr", "bonjour",
        "Voice conversion successful"⟩ from by decide]
    rw [Except.map, h]
    decide
  · exact (voice_conversion_text_priority svcWritesNothing "u5" stEmptySession fsOne "id1"
      "en" none SessionRec.empty (by decide)).2 (by decide) (by decide) svcWritesNothing
      "u5" fsOne

/-! ## C10: empty uploads and the non-empty-content invariant -/

/-- C10 counterexample: an empty-content upload with an allow-listed extension
does fail before any store write, but not with a client-error result: the
route's generic `except Exception` clause re-wraps its own internal
`HTTPException(400, "Empty file uploaded")` into a 500 server error (the sibling
transcript router re-raises `HTTPException` untouched; this route lacks that
clause), so the surfaced status is 500, outside the 4xx range. -/
theorem empty_upload_not_client_error :
    (upload_audio "f2" 0 ⟨[], []⟩ [] (some "a.wav") none []).2 =
      .error ⟨500, "Upload failed: 400: Empty file uploaded"⟩ ∧
    isClientError (upload_audio "f2" 0 ⟨[], []⟩ [] (some "a.wav") none []).2 = false ∧
    (upload_audio "f2" 0 ⟨[], []⟩ [] (some "a.wav") none []).2.isOk = false :=
  ⟨by decide, by decide, by decide⟩

/-- C10 (amended): every upload whose byte content is empty fails — surfaced as
a 500 after the route's generic handler re-wraps the internal 400 — before any
store write, leaving both stores and the filesystem unchanged, so no Artifact
entry is created; and the upload path preserves the invariant that every
Artifact entry holds non-empty in-memory content and a non-empty backing file. -/
theorem fsGet_write_self (fs : FS) (p : String) (b : List Nat) :
    fsGet (fsWrite fs p b) p = b := by
  unfold fsGet fsLookup fsWrite
  rw [List.lookup]
  simp

theorem fsGet_write_other (fs : FS) (p q : String) (b : List Nat) :
    fsGet (fsWrite fs p b) q = b ∨ fsGet (fsWrite fs p b) q = fsGet fs q := by
  unfold fsGet fsLookup fsWrite
  rw [List.lookup]
  cases h : (q == p)
  · exact Or.inr rfl
  · exact Or.inl rfl

/-- C10 (amended): every upload whose byte content is empty fails — surfaced as
a 500 after the route's generic handler re-wraps the internal 400 — before any
store write, leaving both stores and the filesystem unchanged, so no Artifact
entry is created; and the upload path preserves the invariant that every
Artifact entry holds non-empty in-memory content and a non-empty backing file. -/
theorem empty_upload_rejected_before_store_write (freshId : String) (now : Nat)
    (st : Stores) (fs : FS) (filename : Option String) (ctype : Option String) :
    ((upload_audio freshId now st fs filename ctype []).1 = (st, fs) ∧
      (upload_audio freshId now st fs filename ctype []).2.isOk = false) ∧
    (∀ contents, uploadInvariant st fs →
      uploadInvariant (upload_audio freshId now st fs filename ctype contents).1.1
        (upload_audio freshId now st fs filename ctype contents).1.2) := by
  constructor
  · unfold upload_audio
    cases hc : check_audio_format (filename.getD "") with
    | error e => exact ⟨rfl, rfl⟩
    | ok u => exact ⟨rfl, rfl⟩
  · intro contents hinv
    unfold upload_audio
    cases hc : check_audio_format (filename.getD "") with
    | error e => exact hinv
    | ok u =>
      dsimp only
      by_cases hz : contents.length = 0
      · rw [if_pos hz]
        exact hinv
      · rw [if_neg hz]
        intro e he
        rw [storesSetAudio] at he
        dsimp only at he
        rcases List.mem_cons.mp he with he1 | he2
        · subst he1
          constructor
          · intro hnil
            exact hz (by rw [show contents = [] from hnil]; rfl)
          · show fsSize (fsWrite fs (TEMP_AUDIO_DIR ++ freshId ++
              pySuffix (pyOrElse filename "audio.wav")) contents) _ ≠ 0
            unfold fsSize
            rw [fsGet_write_self]
            exact hz
        · have he3 := List.mem_of_mem_filter he2
          obtain ⟨hcon, hsize⟩ := hinv e he3
          refine ⟨hcon, ?_⟩
          show fsSize (fsWrite fs (TEMP_AUDIO_DIR ++ freshId ++
            pySuffix (pyOrElse filename "audio.wav")) contents) e.2.file_path ≠ 0
          unfold fsSize
          rcases fsGet_write_other fs (TEMP_AUDIO_DIR ++ freshId ++
              pySuffix (pyOrElse filename "audio.wav")) e.2.file_path contents with h | h
          · rw [h]; exact hz
          · rw [h]; exact hsize

/-- C10 witness: the invariant survives a successful upload onto an empty store,
and an empty upload onto the same store changes nothing and fails. -/
theorem empty_upload_rejected_before_store_write_witness :
    ((upload_audio "f3" 0 ⟨[], []⟩ [] (some "b.wav") none []).1 = (⟨[], []⟩, []) ∧
      (upload_audio "f3" 0 ⟨[], []⟩ [] (some "b.wav") none []).2.isOk = false) ∧
    uploadInvariant (upload_audio "f3" 0 ⟨[], []⟩ [] (some "b.wav") none [3]).1.1
      (upload_audio "f3" 0 ⟨[], []⟩ [] (some "b.wav") none [3]).1.2 :=
  ⟨(empty_upload_rejected_before_store_write "f3" 0 ⟨[], []⟩ [] (some "b.wav") none).1,
   (empty_upload_rejected_before_store_write "f3" 0 ⟨[], []⟩ [] (some "b.wav") none).2
     [3] (by intro e he; cases he)⟩
